import Mathlib

/-!
Verification of the MathFinder packaging descriptor (`setup.py`).

The repository consists of a single setuptools build script.  We embed the
module-level values it computes and the keyword arguments of its `setup(...)`
call as Lean data, model the file system it reads from explicitly, and prove
the packaging-level properties stated in the specification.
-/

namespace MathFinderSetup

/-- The module-level assignment `entrypoint = 'mathfinder'`. -/
def entrypoint : String := "mathfinder"

/-- The module-level assignment `pkg_name = entrypoint`. -/
def pkg_name : String := entrypoint

/-- The module-level assignment `description = 'HTTP Interface for MathFinder'`. -/
def description : String := "HTTP Interface for MathFinder"

/-- A model of the directory `here` containing `setup.py`: a map from a tuple
of path parts (relative to `here`, as joined by `os.path.join(here, *parts)`)
to the full text of the file at that path, or `none` when no such file
exists. -/
structure FileSystem where
  contents : List String → Option String

/-- The helper `read(*parts)`: it opens the file at
`os.path.join(here, *parts)` and returns its entire text via `fp.read()`.
When the file does not exist, `codecs.open` raises, which we model as an
`Except.error`. -/
def read (fs : FileSystem) (parts : List String) : Except String String :=
  match fs.contents parts with
  | some text => Except.ok text
  | none => Except.error "FileNotFoundError"

/-- The single element of the `console_scripts` list, built by the f-string
`f'{entrypoint} = {pkg_name}.server:main'`. -/
def consoleScriptEntry : String := entrypoint ++ " = " ++ pkg_name ++ ".server:main"

/-- The keyword arguments of the `setup(...)` call, embedded as a record.
`version` is an `Option` so that the absence of a `version` keyword in the
call is representable as `none`. -/
structure SetupArgs where
  name : String
  version : Option String
  install_requires : List String
  entry_points : List (String × List String)
  package_data : List (String × List String)
  packages : List String
  url : String
  license : String
  description : String
  long_description : String
  zip_safe : Bool
  classifiers : List String

/-- The `setup(...)` invocation of `setup.py`, as a function of the
`long_description` computed earlier in the script and of the result of
`find_packages()` (which depends on the directory layout).  No `version`
keyword appears in the call, so `version` is `none`. -/
def setupArgs (long_description : String) (found_packages : List String) : SetupArgs :=
  { name := pkg_name
    version := none
    install_requires := ["tornado", "connexion", "swagger-ui-bundle"]
    entry_points := [("console_scripts", [consoleScriptEntry])]
    package_data := [(pkg_name, ["openapi/*.yaml"])]
    packages := found_packages
    url := ""
    license := "TBD"
    description := MathFinderSetup.description
    long_description := long_description
    zip_safe := true
    classifiers := [
      "Development Status :: 3 - Alpha",
      "Intended Audience :: Developers",
      "Programming Language :: Python"] }

/-- The names of the keyword arguments supplied to the `setup(...)` call, in
source order. -/
def setupKwargNames : List String :=
  ["name", "install_requires", "entry_points", "package_data", "packages",
   "url", "license", "description", "long_description", "zip_safe",
   "classifiers"]

/-- Module-level execution of `setup.py`: first
`long_description = read('README.md')`, then the `setup(...)` call.  A
failure of `read` propagates and aborts the script before `setup` is
reached. -/
def runSetupScript (fs : FileSystem) (found_packages : List String) :
    Except String SetupArgs :=
  match read fs ["README.md"] with
  | Except.ok ld => Except.ok (setupArgs ld found_packages)
  | Except.error e => Except.error e

/-- Split a character list at every occurrence of the character `c`. -/
def splitOnChar (c : Char) : List Char → List (List Char)
  | [] => [[]]
  | x :: xs =>
    match splitOnChar c xs with
    | [] => if x = c then [[], []] else [[x]]
    | y :: ys => if x = c then [] :: y :: ys else (x :: y) :: ys

/-- Strip leading and trailing space characters. -/
def trimSpaces (l : List Char) : List Char :=
  ((l.dropWhile (fun c => c = ' ')).reverse.dropWhile (fun c => c = ' ')).reverse

/-- Setuptools interprets a `console_scripts` entry of the form
`name = module:attr`: the installed command name stands left of `=`, and the
target module and callable stand right of it separated by `:`, with spaces
around `=` ignored.  Returns `(command, module, callable)`. -/
def parseEntryPoint (s : String) : Option (String × String × String) :=
  match splitOnChar '=' s.data with
  | [lhs, rhs] =>
    match splitOnChar ':' (trimSpaces rhs) with
    | [modPart, attrPart] =>
        some (String.mk (trimSpaces lhs), String.mk modPart, String.mk attrPart)
    | _ => none
  | _ => none

/-- The top-level package of a dotted module path: the text before the first
`.`. -/
def topLevelPackage (moduleName : String) : String :=
  match splitOnChar '.' moduleName.data with
  | [] => ""
  | x :: _ => String.mk x

/-- Whether a requirement string carries a PEP 508 version constraint, i.e.
contains any version-specifier character. -/
def hasVersionConstraint (s : String) : Bool :=
  s.data.any (fun c =>
    c == '<' || c == '>' || c == '=' || c == '!' || c == '~' || c == ',' || c == ';')

/-- A sample directory containing a `README.md`, for concrete evaluation. -/
def sampleFS : FileSystem :=
  ⟨fun parts => if parts = ["README.md"] then some "# MathFinder" else none⟩

/-- A sample empty directory with no files at all. -/
def emptyFS : FileSystem := ⟨fun _ => none⟩

/-- Claim C1: the console entry point registered by the setup call binds the
command name `mathfinder` to the callable `main` in the module
`mathfinder.server`. -/
theorem c1_console_entry_binding :
    parseEntryPoint consoleScriptEntry =
      some ("mathfinder", "mathfinder.server", "main") := by decide

/-- Claim C2: installing the package creates exactly one console command and
its name is `mathfinder`: the `console_scripts` list passed to setup is a
single-element list whose entry's command name is the string `mathfinder`. -/
theorem c2_single_console_command (ld : String) (pkgs : List String) :
    (setupArgs ld pkgs).entry_points = [("console_scripts", [consoleScriptEntry])] ∧
    [consoleScriptEntry].length = 1 ∧
    (parseEntryPoint consoleScriptEntry).map (fun t => t.1) = some "mathfinder" :=
  ⟨rfl, rfl, by decide⟩

/-- Claim C3: the `install_requires` list passed to setup is exactly
`tornado`, `connexion`, `swagger-ui-bundle`, in that order, and none of the
three carries a version constraint. -/
theorem c3_install_requires (ld : String) (pkgs : List String) :
    (setupArgs ld pkgs).install_requires = ["tornado", "connexion", "swagger-ui-bundle"] ∧
    ((setupArgs ld pkgs).install_requires.all fun d => !(hasVersionConstraint d)) = true :=
  ⟨rfl, by
    show (["tornado", "connexion", "swagger-ui-bundle"].all fun d =>
      !(hasVersionConstraint d)) = true
    decide⟩

/-- Claim C4: the `package_data` mapping passed to setup covers the package
`mathfinder` and no other, bundling the files matching `openapi/*.yaml`. -/
theorem c4_package_data (ld : String) (pkgs : List String) :
    (setupArgs ld pkgs).package_data = [("mathfinder", ["openapi/*.yaml"])] := rfl

/-- Claim C5: the setup call is version-less: its keyword arguments include
`name`, `install_requires`, `entry_points` and `classifiers` but no
`version`, so the `version` field of the resulting arguments is `none`. -/
theorem c5_versionless :
    "version" ∉ setupKwargNames ∧ "name" ∈ setupKwargNames ∧
    "install_requires" ∈ setupKwargNames ∧ "entry_points" ∈ setupKwargNames ∧
    "classifiers" ∈ setupKwargNames ∧
    ∀ ld pkgs, (setupArgs ld pkgs).version = none :=
  ⟨by decide, by decide, by decide, by decide, by decide, fun _ _ => rfl⟩

/-- Claim C6: the distribution name, the console command name and the
top-level package of the entry-point target are all the single string held in
`entrypoint` (`pkg_name` being an alias of it), namely `mathfinder`. -/
theorem c6_single_name_source (ld : String) (pkgs : List String) :
    pkg_name = entrypoint ∧
    (setupArgs ld pkgs).name = entrypoint ∧
    (parseEntryPoint consoleScriptEntry).map (fun t => t.1) = some entrypoint ∧
    (parseEntryPoint consoleScriptEntry).map (fun t => topLevelPackage t.2.1) =
      some entrypoint :=
  ⟨rfl, rfl, by decide, by decide⟩

/-- Claim C7: for every tuple of path parts naming an existing file, `read`
returns the entire text of that file, and consequently the
`long_description` passed to setup equals the full contents of the
`README.md` next to `setup.py`. -/
theorem c7_long_description (fs : FileSystem) (parts : List String) (text : String)
    (h1 : fs.contents parts = some text)
    (readme : String) (h2 : fs.contents ["README.md"] = some readme)
    (pkgs : List String) :
    read fs parts = Except.ok text ∧
    runSetupScript fs pkgs = Except.ok (setupArgs readme pkgs) ∧
    (setupArgs readme pkgs).long_description = readme := by
  refine ⟨?_, ?_, rfl⟩
  · simp [read, h1]
  · simp [runSetupScript, read, h2]

/-- Witness for C7 on a concrete directory holding a `README.md`. -/
theorem c7_long_description_witness :
    read sampleFS ["README.md"] = Except.ok "# MathFinder" ∧
    runSetupScript sampleFS [] = Except.ok (setupArgs "# MathFinder" []) ∧
    (setupArgs "# MathFinder" []).long_description = "# MathFinder" :=
  c7_long_description sampleFS ["README.md"] "# MathFinder" (by decide)
    "# MathFinder" (by decide) []

/-- Claim C8: when `README.md` is absent from the directory of `setup.py`,
the file-open inside `read` fails and the script aborts before `setup` is
called, so no distribution metadata is produced. -/
theorem c8_missing_readme (fs : FileSystem) (pkgs : List String)
    (h : fs.contents ["README.md"] = none) :
    runSetupScript fs pkgs = Except.error "FileNotFoundError" ∧
    ∀ args, runSetupScript fs pkgs ≠ Except.ok args := by
  have hr : read fs ["README.md"] = Except.error "FileNotFoundError" := by
    simp [read, h]
  refine ⟨?_, ?_⟩
  · simp [runSetupScript, hr]
  · intro args
    simp [runSetupScript, hr]

/-- Witness for C8 on a concrete empty directory. -/
theorem c8_missing_readme_witness :
    runSetupScript emptyFS [] = Except.error "FileNotFoundError" ∧
    ∀ args, runSetupScript emptyFS [] ≠ Except.ok args :=
  c8_missing_readme emptyFS [] rfl

end MathFinderSetup
